import Mathlib

/-!
Verification development for the Bao Linux I/O dispatcher
(`src/iodispatcher/io_dispatcher.c`).

The dispatch path (`bao_dispatch_io`, the `io_dispatcher` drain loop) is
translated directly from the C source.  External collaborators whose code is
not part of this repository's source tree (the hypercall transport, the
client registry, the interrupt-controller handler slot, the Linux workqueue
API) are modelled from the specification at their interface boundary, each
marked `Modelled from the spec:` in its doc comment.
-/

namespace BaoIoDispatcher

/-- Linux errno value `EFAULT` (returned negated by `bao_dispatch_io` on a
hypercall fault). -/
def EFAULT : Int := 14

/-- Linux errno value `EEXIST` (returned negated by `bao_dispatch_io` when no
client claims the request's address). -/
def EEXIST : Int := 17

/-- Linux errno value `ENOMEM` (returned negated by `bao_io_dispatcher_init`
when workqueue allocation fails). -/
def ENOMEM : Int := 12

/-- Modelled from the spec: the `BAO_IO_ASK` opcode ("give me pending work").
Its numeric value lives in a header that is not under `src/`; the value is an
opaque tag and nothing below depends on it. -/
def BAO_IO_ASK : Nat := 0

/-- Modelled from the spec: the fixed capacity `MAX_DOMAINS`
(`BAO_IO_MAX_DMS`, defined in a header not under `src/`).  The exact value is
a representative capacity; no property below depends on the particular
number. -/
def BAO_IO_MAX_DMS : Nat := 16

/-- `struct bao_virtio_request`: one virtual I/O transaction. -/
structure bao_virtio_request where
  dm_id : Nat
  op : Nat
  addr : Nat
  value : Nat
  request_id : Nat
deriving Repr, DecidableEq

/-- `struct remio_hypercall_ret`: the status words and backlog estimate the
hypercall returns.  `pending_requests` is the hypervisor's count of requests
still to be processed, hence a natural number. -/
structure remio_hypercall_ret where
  hyp_ret : Int
  remio_hyp_ret : Int
  pending_requests : Nat
deriving Repr, DecidableEq

/-- Modelled from the spec: one outcome of the hypercall transport
(`remio_ask`) — the returned status/backlog words together with the request
fields the hypervisor writes into the caller's `bao_virtio_request`.  For a
`NoRequest` outcome the hypervisor reports success with `pending_requests = 0`
and writes nothing, so the caller's pre-cleared fields remain zero. -/
structure RemioOutcome where
  ret : remio_hypercall_ret
  addr : Nat
  value : Nat
  request_id : Nat
deriving Repr, DecidableEq

/-- Modelled from the spec: a Poll Channel history — what the hypervisor
answers on the k-th hypercall for a given domain.  Each call consumes one
pending outcome, so the cursor `k` advances by one per call. -/
def RemioOracle : Type := Nat → RemioOutcome

/-- Modelled from the spec: `bao_hypercall_remio` performs one round-trip to
the hypervisor; it returns the status words and overwrites the request's
payload fields with the retrieved request (if any). -/
def bao_hypercall_remio (oracle : RemioOracle) (k : Nat)
    (req : bao_virtio_request) : remio_hypercall_ret × bao_virtio_request :=
  let e := oracle k
  (e.ret, { req with addr := e.addr, value := e.value, request_id := e.request_id })

/-- Modelled from the spec: an I/O client — an emulated-device endpoint
claiming the address range `[lo, hi)`, with a FIFO queue of requests
(insertion order = delivery order). -/
structure bao_io_client where
  lo : Nat
  hi : Nat
  queue : List bao_virtio_request
deriving Repr, DecidableEq

/-- `struct bao_dm`: a dispatch domain — a stable id plus its registered
clients (the client registry, modelled from the spec as a list of
address-range claims; at most one client claims a given address, so lookup
takes the first match). -/
structure bao_dm where
  id : Nat
  clients : List bao_io_client
deriving Repr, DecidableEq

/-- Modelled from the spec: registry lookup over a client list — the index of
the first client whose address range contains the request's address, or
`none`. -/
def bao_io_client_find_aux (req : bao_virtio_request) :
    List bao_io_client → Option Nat
  | [] => none
  | c :: cs =>
    if c.lo ≤ req.addr ∧ req.addr < c.hi then some 0
    else (bao_io_client_find_aux req cs).map (fun n => n + 1)

/-- Modelled from the spec: `bao_io_client_find(dm, req)` — route a request to
the client owning its address, `none` when no registered client matches. -/
def bao_io_client_find (dm : bao_dm) (req : bao_virtio_request) : Option Nat :=
  bao_io_client_find_aux req dm.clients

/-- Modelled from the spec: `bao_io_client_push_request` — append the request
to the tail of the client's queue. -/
def bao_io_client_push_request (c : bao_io_client) (req : bao_virtio_request) :
    bao_io_client :=
  { c with queue := c.queue ++ [req] }

/-- Push a request onto the queue of the client at index `i` of a client
list, leaving every other client unchanged. -/
def push_at (req : bao_virtio_request) :
    List bao_io_client → Nat → List bao_io_client
  | [], _ => []
  | c :: cs, 0 => bao_io_client_push_request c req :: cs
  | c :: cs, Nat.succ n => c :: push_at req cs n

/-- Observable effects of one `bao_dispatch_io` call on a client:
a push onto the client's queue, or a `wake_up_interruptible` on the client's
wait queue. -/
inductive DispatchEv where
  | push (clientIdx : Nat) (req : bao_virtio_request)
  | wake (clientIdx : Nat)
deriving Repr, DecidableEq

/-- `bao_dispatch_io(dm)`: build an ASK request with cleared payload fields,
perform the hypercall (consuming the oracle outcome at cursor `k`), return
`-EFAULT` if either status word is non-zero, `-EEXIST` if no client claims
the retrieved address, otherwise push the request onto the matched client's
queue, wake the client's consumer, and return the hypervisor's pending
count.  Result: (return value, updated domain, advanced cursor, effect
trace). -/
def bao_dispatch_io (oracle : RemioOracle) (dm : bao_dm) (k : Nat) :
    Int × bao_dm × Nat × List DispatchEv :=
  let req0 : bao_virtio_request :=
    { dm_id := dm.id, op := BAO_IO_ASK, addr := 0, value := 0, request_id := 0 }
  let hc := bao_hypercall_remio oracle k req0
  let ret := hc.1
  let req := hc.2
  if ret.hyp_ret ≠ 0 ∨ ret.remio_hyp_ret ≠ 0 then
    (-EFAULT, dm, k + 1, [])
  else
    match bao_io_client_find dm req with
    | none => (-EEXIST, dm, k + 1, [])
    | some i =>
      ((ret.pending_requests : Int),
        { dm with clients := push_at req dm.clients i },
        k + 1,
        [DispatchEv.push i req, DispatchEv.wake i])

/-- The `io_dispatcher` work function's loop
`while (bao_dispatch_io(dm) > 0);`, with explicit fuel (the C loop's
termination depends on the hypervisor's answers; every scenario proved below
terminates well within its fuel).  `none` means the fuel ran out mid-loop;
`some (dm, k, evs)` means the loop exited normally with final domain state,
hypercall cursor, and accumulated effect trace. -/
def io_dispatcher_loop (oracle : RemioOracle) :
    Nat → bao_dm → Nat → List DispatchEv →
    Option (bao_dm × Nat × List DispatchEv)
  | 0, _, _, _ => none
  | Nat.succ fuel, dm, k, evs =>
    let step := bao_dispatch_io oracle dm k
    if step.1 > 0 then
      io_dispatcher_loop oracle fuel step.2.1 step.2.2.1 (evs ++ step.2.2.2)
    else
      some (step.2.1, step.2.2.1, evs ++ step.2.2.2)

/-- `io_dispatcher(work)`: one drain pass for a domain, starting at hypercall
cursor 0 with an empty effect trace. -/
def io_dispatcher (oracle : RemioOracle) (fuel : Nat) (dm : bao_dm) :
    Option (bao_dm × Nat × List DispatchEv) :=
  io_dispatcher_loop oracle fuel dm 0 []

/-! ## Lifecycle model

The file's process-wide state: the per-domain workqueue slots
(`bao_io_dispatcher_wq[BAO_IO_MAX_DMS]`), the per-domain work items
(`io_dispatcher_work[BAO_IO_MAX_DMS]`), and the single interrupt-controller
handler slot shared by all domains (`bao_intc_setup_handler` /
`bao_intc_remove_handler` take no domain argument).  The tables are modelled
as total maps on domain ids, reflecting that the C code indexes them with
`dm->info.id` without any range check. -/

/-- The dispatcher module's mutable state: whether each workqueue slot is
non-NULL, whether each domain's work item is currently queued on its
workqueue, the `dm` pointer stored in each work item, and whether the
(global, shared) interrupt-controller handler slot is occupied. -/
structure DispState where
  wq_exists : Nat → Bool
  pending : Nat → Bool
  work_dm : Nat → Option Nat
  handler_installed : Bool

/-- Externally visible actions the lifecycle entry points perform, in call
order: installing/removing the shared intc handler, queueing a domain's work
item, draining a domain's workqueue (blocking until in-flight and queued
passes finish), allocating/destroying a domain's workqueue, initializing a
work item. -/
inductive Act where
  | installHandler
  | removeHandler
  | queueWork (i : Nat)
  | drainWq (i : Nat)
  | allocWq (i : Nat)
  | initWork (i : Nat)
  | destroyWq (i : Nat)
deriving Repr, DecidableEq

/-- Modelled from the spec: `bao_intc_setup_handler(cb)` — occupy the shared
handler slot (the subsystem has a single slot; the callback takes the
triggering domain as argument). -/
def bao_intc_setup_handler (st : DispState) : DispState × List Act :=
  ({ st with handler_installed := true }, [Act.installHandler])

/-- Modelled from the spec: `bao_intc_remove_handler()` — empty the shared
handler slot.  The call takes no domain argument: it removes notification
delivery for every domain at once. -/
def bao_intc_remove_handler (st : DispState) : DispState × List Act :=
  ({ st with handler_installed := false }, [Act.removeHandler])

/-- Modelled from the spec: `queue_work(wq[i], work[i])` — mark domain `i`'s
work item queued.  Queueing an already-queued item coalesces (the flag is
already set). -/
def queue_work (i : Nat) (st : DispState) : DispState × List Act :=
  ({ st with pending := fun j => if j = i then true else st.pending j },
    [Act.queueWork i])

/-- Modelled from the spec: `drain_workqueue(wq[i])` — block until every
queued or in-flight work item of domain `i`'s workqueue has run to
completion; afterwards nothing of domain `i` is pending. -/
def drain_workqueue (i : Nat) (st : DispState) : DispState × List Act :=
  ({ st with pending := fun j => if j = i then false else st.pending j },
    [Act.drainWq i])

/-- `io_dispatcher_intc_handler(dm)`: the notification callback — add the
triggering domain's work item to that domain's workqueue. -/
def io_dispatcher_intc_handler (i : Nat) (st : DispState) : DispState × List Act :=
  queue_work i st

/-- `bao_io_dispatcher_pause(dm)`: remove the intc handler, then drain the
domain's workqueue. -/
def bao_io_dispatcher_pause (i : Nat) (st : DispState) : DispState × List Act :=
  let r1 := bao_intc_remove_handler st
  let r2 := drain_workqueue i r1.1
  (r2.1, r1.2 ++ r2.2)

/-- `bao_io_dispatcher_resume(dm)`: install the intc handler, then queue the
domain's work item. -/
def bao_io_dispatcher_resume (i : Nat) (st : DispState) : DispState × List Act :=
  let r1 := bao_intc_setup_handler st
  let r2 := queue_work i r1.1
  (r2.1, r1.2 ++ r2.2)

/-- `bao_io_dispatcher_destroy(dm)`: if the domain's workqueue slot is
non-NULL, pause the dispatcher, destroy the workqueue, and remove the intc
handler; otherwise do nothing at all. -/
def bao_io_dispatcher_destroy (i : Nat) (st : DispState) : DispState × List Act :=
  if st.wq_exists i then
    let r1 := bao_io_dispatcher_pause i st
    let s2 : DispState :=
      { r1.1 with wq_exists := fun j => if j = i then false else r1.1.wq_exists j }
    let r3 := bao_intc_remove_handler s2
    (r3.1, r1.2 ++ [Act.destroyWq i] ++ r3.2)
  else
    (st, [])

/-- `bao_io_dispatcher_init(dm)`: allocate the domain's workqueue (storing
the result — possibly NULL — in the slot), and on success store the `dm`
pointer in the work item, initialize the work item, and install the intc
handler; on allocation failure return `-ENOMEM`.  The allocation outcome is
an explicit parameter. -/
def bao_io_dispatcher_init (i : Nat) (allocOk : Bool) (st : DispState) :
    Int × DispState × List Act :=
  if allocOk then
    let s1 : DispState :=
      { st with wq_exists := fun j => if j = i then true else st.wq_exists j }
    let s2 : DispState :=
      { s1 with work_dm := fun j => if j = i then some i else s1.work_dm j }
    let r3 := bao_intc_setup_handler s2
    (0, r3.1, [Act.allocWq i, Act.initWork i] ++ r3.2)
  else
    (-ENOMEM,
      { st with wq_exists := fun j => if j = i then false else st.wq_exists j },
      [Act.allocWq i])

/-- Events the environment can produce between lifecycle calls: the
interrupt controller delivering a notification for a domain (which invokes
the installed handler, if any), or the scheduler running a domain's queued
work item (which starts one drain pass for that domain). -/
inductive ExtStep where
  | notify (i : Nat)
  | run (i : Nat)
deriving Repr, DecidableEq

/-- One environment step.  A notification invokes `io_dispatcher_intc_handler`
only when the shared handler slot is occupied.  A `run` step starts a drain
pass for the domain only when its work item is queued; the returned flag
records whether a drain pass (and hence any pushes to that domain's clients)
started. -/
def extStep (st : DispState) : ExtStep → DispState × Bool
  | ExtStep.notify i =>
    if st.handler_installed then ((io_dispatcher_intc_handler i st).1, false)
    else (st, false)
  | ExtStep.run i =>
    if st.pending i then
      ({ st with pending := fun j => if j = i then false else st.pending j }, true)
    else (st, false)

/-- The domains whose drain passes start while executing a sequence of
environment steps.  Every push to a client of domain `i` in the C code
happens inside `io_dispatcher` running as such a drain pass for `i`, so a
domain absent from this list receives no pushes during the sequence. -/
def startedDrains : DispState → List ExtStep → List Nat
  | _, [] => []
  | st, s :: rest =>
    let r := extStep st s
    (if r.2 then
      (match s with
       | ExtStep.notify i => [i]
       | ExtStep.run i => [i])
     else []) ++ startedDrains r.1 rest

/-! ## Concrete scenarios -/

/-- The request `bao_dispatch_io` holds after the hypercall at cursor `k`:
payload fields overwritten by the hypervisor, `dm_id` and `op` as the caller
set them. -/
def dispatch_req (oracle : RemioOracle) (dm : bao_dm) (k : Nat) :
    bao_virtio_request :=
  (bao_hypercall_remio oracle k
    { dm_id := dm.id, op := BAO_IO_ASK, addr := 0, value := 0, request_id := 0 }).2

/-- Scenario domain for the spec's worked example: domain 3 with one client
registered for the address range [0x1000, 0x2000). -/
def dm3 : bao_dm := { id := 3, clients := [{ lo := 0x1000, hi := 0x2000, queue := [] }] }

/-- Scenario Poll Channel history for the spec's worked example: a routable
request (addr 0x1000, value 5, pending 2), a routable request (addr 0x1800,
value 9, pending 1), an unroutable request (addr 0x3000, value 1,
pending 0), then `NoRequest` forever (success status, nothing written,
pending 0). -/
def oracle3 : RemioOracle := fun k =>
  match k with
  | 0 => { ret := { hyp_ret := 0, remio_hyp_ret := 0, pending_requests := 2 }, addr := 0x1000, value := 5, request_id := 0 }
  | 1 => { ret := { hyp_ret := 0, remio_hyp_ret := 0, pending_requests := 1 }, addr := 0x1800, value := 9, request_id := 1 }
  | 2 => { ret := { hyp_ret := 0, remio_hyp_ret := 0, pending_requests := 0 }, addr := 0x3000, value := 1, request_id := 2 }
  | _ => { ret := { hyp_ret := 0, remio_hyp_ret := 0, pending_requests := 0 }, addr := 0, value := 0, request_id := 0 }

/-- The first request of the worked example as `bao_dispatch_io` holds it. -/
def req3A : bao_virtio_request := { dm_id := 3, op := BAO_IO_ASK, addr := 0x1000, value := 5, request_id := 0 }

/-- The second request of the worked example as `bao_dispatch_io` holds it. -/
def req3B : bao_virtio_request := { dm_id := 3, op := BAO_IO_ASK, addr := 0x1800, value := 9, request_id := 1 }

/-- The worked example's final domain state: both routable requests queued on
the client, in poll order. -/
def dm3Final : bao_dm := { id := 3, clients := [{ lo := 0x1000, hi := 0x2000, queue := [req3A, req3B] }] }

/-- Routing-miss scenario domain: domain 1 with one client registered for
[0x1000, 0x2000). -/
def dm2 : bao_dm := { id := 1, clients := [{ lo := 0x1000, hi := 0x2000, queue := [] }] }

/-- Routing-miss scenario history: first an unroutable request (addr 0x3000)
with 5 further requests pending, then a routable request (addr 0x1000), then
`NoRequest` forever. -/
def oracle2 : RemioOracle := fun k =>
  match k with
  | 0 => { ret := { hyp_ret := 0, remio_hyp_ret := 0, pending_requests := 5 }, addr := 0x3000, value := 7, request_id := 0 }
  | 1 => { ret := { hyp_ret := 0, remio_hyp_ret := 0, pending_requests := 4 }, addr := 0x1000, value := 7, request_id := 1 }
  | _ => { ret := { hyp_ret := 0, remio_hyp_ret := 0, pending_requests := 0 }, addr := 0, value := 0, request_id := 0 }

/-- A lifecycle state with two live domains (0 and 1), nothing queued, and
the shared intc handler installed. -/
def st2 : DispState :=
  { wq_exists := fun j => decide (j < 2), pending := fun _ => false,
    work_dm := fun _ => none, handler_installed := true }

/-- The all-empty lifecycle state: no workqueues, nothing queued, no work
items bound, handler slot empty. -/
def st0 : DispState :=
  { wq_exists := fun _ => false, pending := fun _ => false,
    work_dm := fun _ => none, handler_installed := false }

/-! ## Helper lemmas -/

/-- A successful registry lookup returns an index inside the client list. -/
lemma find_aux_lt (req : bao_virtio_request) :
    ∀ (l : List bao_io_client) (i : Nat),
      bao_io_client_find_aux req l = some i → i < l.length := by
  intro l
  induction l with
  | nil => intro i h; simp [bao_io_client_find_aux] at h
  | cons c cs ih =>
    intro i h
    simp only [bao_io_client_find_aux] at h
    split at h
    · cases h; simp
    · rcases Option.map_eq_some'.mp h with ⟨m, hm, rfl⟩
      have := ih m hm
      simpa using Nat.succ_lt_succ this

/-- `push_at` at the pushed index: the client there gains exactly the pushed
request at the tail of its queue. -/
lemma push_at_getElem?_self (req : bao_virtio_request) :
    ∀ (l : List bao_io_client) (i : Nat),
      (push_at req l i)[i]? = l[i]?.map (fun c => bao_io_client_push_request c req) := by
  intro l
  induction l with
  | nil => intro i; simp [push_at]
  | cons c cs ih =>
    intro i
    cases i with
    | zero => simp [push_at]
    | succ n => simpa [push_at] using ih n

/-- `push_at` leaves every client other than the pushed one unchanged. -/
lemma push_at_getElem?_ne (req : bao_virtio_request) :
    ∀ (l : List bao_io_client) (i j : Nat), j ≠ i →
      (push_at req l i)[j]? = l[j]? := by
  intro l
  induction l with
  | nil => intro i j _; simp [push_at]
  | cons c cs ih =>
    intro i j hji
    cases i with
    | zero =>
      cases j with
      | zero => exact absurd rfl hji
      | succ m => simp [push_at]
    | succ n =>
      cases j with
      | zero => simp [push_at]
      | succ m =>
        have : m ≠ n := fun h => hji (by simp [h])
        simpa [push_at] using ih n m this

/-- On a fault status (either word non-zero) `bao_dispatch_io` returns
`-EFAULT` immediately: no lookup, no push, no wakeup, cursor advanced by
one. -/
lemma dispatch_io_fault (oracle : RemioOracle) (dm : bao_dm) (k : Nat)
    (hf : (oracle k).ret.hyp_ret ≠ 0 ∨ (oracle k).ret.remio_hyp_ret ≠ 0) :
    bao_dispatch_io oracle dm k = (-EFAULT, dm, k + 1, []) := by
  rcases hf with h | h
  · simp [bao_dispatch_io, bao_hypercall_remio, h]
  · simp [bao_dispatch_io, bao_hypercall_remio, h]

/-- On a successful hypercall whose request matches no client,
`bao_dispatch_io` returns `-EEXIST` with the domain untouched and no
effects. -/
lemma dispatch_io_miss (oracle : RemioOracle) (dm : bao_dm) (k : Nat)
    (h1 : (oracle k).ret.hyp_ret = 0) (h2 : (oracle k).ret.remio_hyp_ret = 0)
    (hfind : bao_io_client_find dm (dispatch_req oracle dm k) = none) :
    bao_dispatch_io oracle dm k = (-EEXIST, dm, k + 1, []) := by
  simp only [dispatch_req, bao_hypercall_remio] at hfind
  simp [bao_dispatch_io, bao_hypercall_remio, h1, h2, hfind]

/-- On a successful hypercall whose request matches client `i`,
`bao_dispatch_io` pushes the request onto client `i`'s queue, emits exactly
a push followed by a wake, and returns the hypervisor's pending count. -/
lemma dispatch_io_hit (oracle : RemioOracle) (dm : bao_dm) (k i : Nat)
    (h1 : (oracle k).ret.hyp_ret = 0) (h2 : (oracle k).ret.remio_hyp_ret = 0)
    (hfind : bao_io_client_find dm (dispatch_req oracle dm k) = some i) :
    bao_dispatch_io oracle dm k =
      (((oracle k).ret.pending_requests : Int),
        { dm with clients := push_at (dispatch_req oracle dm k) dm.clients i },
        k + 1,
        [DispatchEv.push i (dispatch_req oracle dm k), DispatchEv.wake i]) := by
  simp only [dispatch_req, bao_hypercall_remio] at hfind ⊢
  simp [bao_dispatch_io, bao_hypercall_remio, h1, h2, hfind]

/-- If a `bao_dispatch_io` call does not return a positive pending count the
drain loop stops right after it. -/
lemma loop_stop (oracle : RemioOracle) (dm dm' : bao_dm) (k k' : Nat)
    (r : Int) (evs' : List DispatchEv) (fuel : Nat) (evs : List DispatchEv)
    (hstep : bao_dispatch_io oracle dm k = (r, dm', k', evs'))
    (hr : ¬ r > 0) :
    io_dispatcher_loop oracle (fuel + 1) dm k evs = some (dm', k', evs ++ evs') := by
  simp [io_dispatcher_loop, hstep, hr]

/-- In a lifecycle state whose shared handler slot is empty and whose work
item for domain `i` is not queued, no sequence of environment steps
(notifications, scheduler runs) ever starts a drain pass for domain `i`. -/
lemma quiescent_no_drain :
    ∀ (steps : List ExtStep) (st : DispState) (i : Nat),
      st.handler_installed = false → st.pending i = false →
      i ∉ startedDrains st steps := by
  intro steps
  induction steps with
  | nil => intro st i _ _; simp [startedDrains]
  | cons s rest ih =>
    intro st i hh hp
    cases s with
    | notify j =>
      have hstep : extStep st (ExtStep.notify j) = (st, false) := by
        simp [extStep, hh]
      simp only [startedDrains, hstep, Bool.false_eq_true, if_false, List.nil_append]
      exact ih st i hh hp
    | run j =>
      by_cases hj : st.pending j = true
      · have hji : j ≠ i := by
          intro h; rw [h, hp] at hj; exact Bool.noConfusion hj
        have hstep : extStep st (ExtStep.run j) =
            ({ st with pending := fun m => if m = j then false else st.pending m }, true) := by
          simp [extStep, hj]
        simp only [startedDrains, hstep, if_true, List.cons_append, List.nil_append]
        intro hmem
        rcases List.mem_cons.mp hmem with h | h
        · exact hji h.symm
        · have hp' : (({ st with
              pending := fun m => if m = j then false else st.pending m } : DispState)).pending i = false := by
            by_cases hij : i = j
            · simp [hij]
            · simp [hij, hp]
          have hh' : (({ st with
              pending := fun m => if m = j then false else st.pending m } : DispState)).handler_installed = false := hh
          exact ih _ i hh' hp' h
      · have hstep : extStep st (ExtStep.run j) = (st, false) := by
          simp [extStep, hj]
        simp only [startedDrains, hstep, Bool.false_eq_true, if_false, List.nil_append]
        exact ih st i hh hp

/-- A Poll Channel history whose first outcome is a transport fault
(`hyp_ret = 1`). -/
def oracleF : RemioOracle := fun _ =>
  { ret := { hyp_ret := 1, remio_hyp_ret := 0, pending_requests := 0 }, addr := 0, value := 0, request_id := 0 }

/-! ## Claims -/

/-- C1: when a poll succeeds and the retrieved request matches a registered
client, one `bao_dispatch_io` call emits exactly one push of that request to
that client followed (strictly afterwards) by exactly one consumer wakeup,
appends the request at the tail of exactly that client's queue (no
duplication, no loss, no other client touched), and returns the
hypervisor's pending count. -/
theorem c1_dispatch_pushes_once_then_wakes :
    ∀ (oracle : RemioOracle) (dm : bao_dm) (k i : Nat),
      (oracle k).ret.hyp_ret = 0 → (oracle k).ret.remio_hyp_ret = 0 →
      bao_io_client_find dm (dispatch_req oracle dm k) = some i →
      (bao_dispatch_io oracle dm k).2.2.2 =
        [DispatchEv.push i (dispatch_req oracle dm k), DispatchEv.wake i] ∧
      ((bao_dispatch_io oracle dm k).2.1).clients[i]? =
        dm.clients[i]?.map (fun c => bao_io_client_push_request c (dispatch_req oracle dm k)) ∧
      (∀ j, j ≠ i → ((bao_dispatch_io oracle dm k).2.1).clients[j]? = dm.clients[j]?) ∧
      (bao_dispatch_io oracle dm k).1 = ((oracle k).ret.pending_requests : Int) := by
  intro oracle dm k i h1 h2 hfind
  have hout := dispatch_io_hit oracle dm k i h1 h2 hfind
  refine ⟨by rw [hout], ?_, ?_, by rw [hout]⟩
  · rw [hout]
    exact push_at_getElem?_self _ dm.clients i
  · intro j hji
    rw [hout]
    exact push_at_getElem?_ne _ dm.clients i j hji

/-- C1 witness: in the worked example, the first poll's request is pushed to
client 0 and then the wakeup is issued. -/
theorem c1_dispatch_pushes_once_then_wakes_witness :
    (bao_dispatch_io oracle3 dm3 0).2.2.2 =
      [DispatchEv.push 0 (dispatch_req oracle3 dm3 0), DispatchEv.wake 0] :=
  (c1_dispatch_pushes_once_then_wakes oracle3 dm3 0 0 rfl rfl (by decide)).1

/-- C2 counterexample: the first poll retrieves an unroutable request while
the hypervisor reports 5 further pending requests and the very next outcome
is routable (its request matches client 0), yet the drain pass ends after
that single poll with the domain untouched and no effects — the pass
terminates on the routing miss instead of continuing. -/
theorem c2_routing_miss_ends_pass_counterexample :
    io_dispatcher oracle2 10 dm2 = some (dm2, 1, []) ∧
    (oracle2 0).ret.pending_requests = 5 ∧
    bao_io_client_find dm2 (dispatch_req oracle2 dm2 1) = some 0 := by
  decide

/-- C2 (amended): when a poll returns a request whose address matches no
registered client, `bao_dispatch_io` reports the drop by returning `-EEXIST`
with no effects, and the drain pass terminates at that poll (the
`while (... > 0)` condition fails); it does not keep polling in the same
pass and no drop counter is recorded. -/
theorem c2_routing_miss_returns_eexist_pass_ends :
    ∀ (oracle : RemioOracle) (dm : bao_dm) (k : Nat),
      (oracle k).ret.hyp_ret = 0 → (oracle k).ret.remio_hyp_ret = 0 →
      bao_io_client_find dm (dispatch_req oracle dm k) = none →
      bao_dispatch_io oracle dm k = (-EEXIST, dm, k + 1, []) ∧
      ∀ (fuel : Nat) (evs : List DispatchEv),
        io_dispatcher_loop oracle (fuel + 1) dm k evs = some (dm, k + 1, evs) := by
  intro oracle dm k h1 h2 hfind
  have hout := dispatch_io_miss oracle dm k h1 h2 hfind
  refine ⟨hout, ?_⟩
  intro fuel evs
  have := loop_stop oracle dm dm k (k + 1) (-EEXIST) [] fuel evs hout (by decide)
  simpa using this

/-- C2 witness: in the routing-miss scenario the first `bao_dispatch_io`
call returns `-EEXIST` leaving the domain untouched. -/
theorem c2_routing_miss_returns_eexist_pass_ends_witness :
    bao_dispatch_io oracle2 dm2 0 = (-EEXIST, dm2, 1, []) :=
  (c2_routing_miss_returns_eexist_pass_ends oracle2 dm2 0 rfl rfl (by decide)).1

/-- C3 counterexample: in the spec's worked example the drain pass makes
exactly 3 hypercalls — it terminates at the unroutable third request, with
the `NoRequest` outcome (cursor 3) never observed, contrary to the claim
that the loop terminates only after observing the `NoRequest`. -/
theorem c3_scenario_never_observes_norequest_counterexample :
    (io_dispatcher oracle3 10 dm3).map (fun r => r.2.1) = some 3 ∧
    (io_dispatcher oracle3 10 dm3).map (fun r => r.2.1) ≠ some 4 := by
  decide

/-- C3 (amended): in the worked example one drain pass leaves the client's
queue as [req(0x1000,5), req(0x1800,9)] in that order, but the pass
terminates at the third poll — the unroutable request is dropped with
`bao_dispatch_io` reporting `-EEXIST` (no drop counter exists) and the
`NoRequest` is never observed. -/
theorem c3_scenario_queue_order_and_early_stop :
    io_dispatcher oracle3 10 dm3 =
      some (dm3Final, 3,
        [DispatchEv.push 0 req3A, DispatchEv.wake 0, DispatchEv.push 0 req3B, DispatchEv.wake 0]) ∧
    (bao_dispatch_io oracle3 dm3Final 2).1 = -EEXIST := by
  decide

/-- C4: `bao_dispatch_io` returns `-EFAULT` exactly when the hypercall's
status is non-zero (`hyp_ret` or `remio_hyp_ret` non-zero); on such a fault
the domain is untouched, no request is delivered, and the drain loop stops
normally right there (it returns, propagating nothing). -/
theorem c4_fault_iff_nonzero_status_stops_pass :
    ∀ (oracle : RemioOracle) (dm : bao_dm) (k : Nat),
      ((bao_dispatch_io oracle dm k).1 = -EFAULT ↔
        ((oracle k).ret.hyp_ret ≠ 0 ∨ (oracle k).ret.remio_hyp_ret ≠ 0)) ∧
      (((oracle k).ret.hyp_ret ≠ 0 ∨ (oracle k).ret.remio_hyp_ret ≠ 0) →
        (bao_dispatch_io oracle dm k).2.1 = dm ∧
        (bao_dispatch_io oracle dm k).2.2.2 = [] ∧
        ∀ (fuel : Nat) (evs : List DispatchEv),
          io_dispatcher_loop oracle (fuel + 1) dm k evs = some (dm, k + 1, evs)) := by
  intro oracle dm k
  by_cases hf : (oracle k).ret.hyp_ret ≠ 0 ∨ (oracle k).ret.remio_hyp_ret ≠ 0
  · have hout := dispatch_io_fault oracle dm k hf
    refine ⟨⟨fun _ => hf, fun _ => by rw [hout]⟩, fun _ => ⟨by rw [hout], by rw [hout], ?_⟩⟩
    intro fuel evs
    have := loop_stop oracle dm dm k (k + 1) (-EFAULT) [] fuel evs hout (by decide)
    simpa using this
  · push_neg at hf
    refine ⟨⟨?_, fun h => absurd h (by simp [hf.1, hf.2])⟩, fun h => absurd h (by simp [hf.1, hf.2])⟩
    intro heq
    cases hfind : bao_io_client_find dm (dispatch_req oracle dm k) with
    | none =>
      have hout := dispatch_io_miss oracle dm k hf.1 hf.2 hfind
      rw [hout] at heq
      simp [EEXIST, EFAULT] at heq
    | some i =>
      have hout := dispatch_io_hit oracle dm k i hf.1 hf.2 hfind
      rw [hout] at heq
      simp only [EFAULT] at heq
      omega

/-- C4 witness: on a history whose first outcome is a fault, the drain pass
stops after that one poll with the domain untouched and no effects. -/
theorem c4_fault_iff_nonzero_status_stops_pass_witness :
    io_dispatcher_loop oracleF (0 + 1) dm2 0 [] = some (dm2, 0 + 1, []) :=
  ((c4_fault_iff_nonzero_status_stops_pass oracleF dm2 0).2 (by decide)).2.2 0 []

/-- C5: `bao_io_dispatcher_pause` removes the (shared) notification handler
strictly before draining the domain's workqueue; after it returns the
handler slot is empty and nothing of the domain is queued, and no sequence
of subsequent environment steps (notifications, scheduler runs) — i.e.
anything short of a resume — can start a drain pass for the domain, hence
no further pushes to any of its clients occur. -/
theorem c5_pause_uninstall_then_drain_then_quiescent :
    ∀ (st : DispState) (i : Nat) (steps : List ExtStep),
      (bao_io_dispatcher_pause i st).2 = [Act.removeHandler, Act.drainWq i] ∧
      ((bao_io_dispatcher_pause i st).1).handler_installed = false ∧
      ((bao_io_dispatcher_pause i st).1).pending i = false ∧
      i ∉ startedDrains (bao_io_dispatcher_pause i st).1 steps := by
  intro st i steps
  refine ⟨rfl, rfl, by simp [bao_io_dispatcher_pause, drain_workqueue, bao_intc_remove_handler], ?_⟩
  exact quiescent_no_drain steps _ i rfl
    (by simp [bao_io_dispatcher_pause, drain_workqueue, bao_intc_remove_handler])

/-- C6 counterexample: with two active domains and the handler installed, a
notification for domain 1 queues domain 1's drain before `pause(0)`, but
after `pause(0)` the identical notification for domain 1 is lost — pausing
domain 0 changed notification delivery for domain 1, because the
notification handler is a single shared slot, not per-domain. -/
theorem c6_pause_breaks_other_domain_notify_counterexample :
    ((extStep st2 (ExtStep.notify 1)).1).pending 1 = true ∧
    ((extStep (bao_io_dispatcher_pause 0 st2).1 (ExtStep.notify 1)).1).pending 1 = false := by
  decide

/-- C6 (amended): `pause(D)` and `destroy(D)` drain or destroy only domain
D's workqueue — every other domain's queued work and workqueue are left
unchanged — but they remove the single shared notification handler,
disabling notification delivery for every domain until a later resume or
init reinstalls it. -/
theorem c6_pause_destroy_local_queues_global_handler :
    ∀ (st : DispState) (i j : Nat), j ≠ i →
      ((bao_io_dispatcher_pause i st).1).pending j = st.pending j ∧
      ((bao_io_dispatcher_pause i st).1).wq_exists j = st.wq_exists j ∧
      ((bao_io_dispatcher_pause i st).1).handler_installed = false ∧
      ((bao_io_dispatcher_destroy i st).1).pending j = st.pending j ∧
      ((bao_io_dispatcher_destroy i st).1).wq_exists j = st.wq_exists j ∧
      (st.wq_exists i = true → ((bao_io_dispatcher_destroy i st).1).handler_installed = false) := by
  intro st i j hji
  refine ⟨?_, rfl, rfl, ?_, ?_, ?_⟩
  · simp [bao_io_dispatcher_pause, drain_workqueue, bao_intc_remove_handler, hji]
  · by_cases hw : st.wq_exists i <;>
      simp [bao_io_dispatcher_destroy, bao_io_dispatcher_pause, drain_workqueue,
        bao_intc_remove_handler, hw, hji]
  · by_cases hw : st.wq_exists i <;>
      simp [bao_io_dispatcher_destroy, bao_io_dispatcher_pause, drain_workqueue,
        bao_intc_remove_handler, hw, hji]
  · intro hw
    simp [bao_io_dispatcher_destroy, bao_io_dispatcher_pause, drain_workqueue,
      bao_intc_remove_handler, hw]

/-- C6 witness: pausing domain 0 leaves domain 1's queued-work flag
unchanged. -/
theorem c6_pause_destroy_local_queues_global_handler_witness :
    ((bao_io_dispatcher_pause 0 st2).1).pending 1 = st2.pending 1 :=
  (c6_pause_destroy_local_queues_global_handler st2 0 1 (by decide)).1

/-- C7: `bao_io_dispatcher_resume` installs the notification handler and
then unconditionally queues the domain's work item, so one drain pass is
scheduled immediately without waiting for a new notification. -/
theorem c7_resume_reinstalls_handler_and_schedules_pass :
    ∀ (st : DispState) (i : Nat),
      (bao_io_dispatcher_resume i st).2 = [Act.installHandler, Act.queueWork i] ∧
      ((bao_io_dispatcher_resume i st).1).handler_installed = true ∧
      ((bao_io_dispatcher_resume i st).1).pending i = true := by
  intro st i
  exact ⟨rfl, rfl, by simp [bao_io_dispatcher_resume, queue_work, bao_intc_setup_handler]⟩

/-- C8 counterexample: domain id 16 is out of range of the 16-entry
per-domain tables (valid indices 0..15), yet `bao_io_dispatcher_init`
called with id 16 returns 0 (success, not any error) and silently writes
the table at index 16 — no ProtocolViolation-style failure exists. -/
theorem c8_out_of_range_init_succeeds_counterexample :
    BAO_IO_MAX_DMS = 16 ∧
    (bao_io_dispatcher_init 16 true st0).1 = 0 ∧
    ((bao_io_dispatcher_init 16 true st0).2.1).wq_exists 16 = true ∧
    ((bao_io_dispatcher_init 16 true st0).2.1).handler_installed = true := by
  decide

/-- C8 (amended): none of the lifecycle entry points (init, resume, pause,
destroy) nor the notification trigger checks the domain id against the
fixed capacity `BAO_IO_MAX_DMS` or reports an error for an out-of-range id:
each behaves for any id at or beyond the capacity exactly as for an
in-range one, indexing the per-domain tables directly (in the C code this
is an unchecked out-of-bounds array access). -/
theorem c8_no_domain_id_range_check :
    ∀ (st : DispState) (i : Nat), BAO_IO_MAX_DMS ≤ i →
      (bao_io_dispatcher_init i true st).1 = 0 ∧
      ((bao_io_dispatcher_init i true st).2.1).wq_exists i = true ∧
      (bao_io_dispatcher_pause i st).2 = [Act.removeHandler, Act.drainWq i] ∧
      (bao_io_dispatcher_resume i st).2 = [Act.installHandler, Act.queueWork i] ∧
      ((io_dispatcher_intc_handler i st).1).pending i = true ∧
      (st.wq_exists i = true → (bao_io_dispatcher_destroy i st).2 ≠ []) := by
  intro st i _
  refine ⟨rfl, by simp [bao_io_dispatcher_init, bao_intc_setup_handler], rfl, rfl,
    by simp [io_dispatcher_intc_handler, queue_work], ?_⟩
  intro hw
  simp [bao_io_dispatcher_destroy, hw, bao_io_dispatcher_pause, bao_intc_remove_handler,
    drain_workqueue]

/-- C8 witness: init at the out-of-range id 16 returns success. -/
theorem c8_no_domain_id_range_check_witness :
    (bao_io_dispatcher_init 16 true st0).1 = 0 :=
  (c8_no_domain_id_range_check st0 16 (by decide)).1

/-- C9: for a domain whose workqueue slot is NULL (init never called, or
init failed — a failed init leaves the slot NULL and returns `-ENOMEM`),
destroy is a guarded no-op: it changes nothing and performs no action (no
pause, no workqueue destruction, no handler removal), so it is safe after a
failed init; pause and resume have no such guard — they perform their full
action sequences regardless. -/
theorem c9_destroy_guarded_noop_pause_resume_unguarded :
    ∀ (st : DispState) (i : Nat), st.wq_exists i = false →
      bao_io_dispatcher_destroy i st = (st, []) ∧
      (bao_io_dispatcher_pause i st).2 = [Act.removeHandler, Act.drainWq i] ∧
      (bao_io_dispatcher_resume i st).2 = [Act.installHandler, Act.queueWork i] ∧
      (bao_io_dispatcher_init i false st).1 = -ENOMEM ∧
      ((bao_io_dispatcher_init i false st).2.1).wq_exists i = false := by
  intro st i hw
  exact ⟨by simp [bao_io_dispatcher_destroy, hw], rfl, rfl, rfl,
    by simp [bao_io_dispatcher_init]⟩

/-- C9 witness: destroying domain 0 in the all-empty state does nothing. -/
theorem c9_destroy_guarded_noop_pause_resume_unguarded_witness :
    bao_io_dispatcher_destroy 0 st0 = (st0, []) :=
  (c9_destroy_guarded_noop_pause_resume_unguarded st0 0 rfl).1

/-- C10: a successful `bao_io_dispatcher_init` returns 0 with the
notification handler already installed, so an external notification for the
domain immediately queues a drain pass — before any resume is ever
called. -/
theorem c10_init_installs_handler_notify_schedules :
    ∀ (st : DispState) (i : Nat),
      (bao_io_dispatcher_init i true st).1 = 0 ∧
      ((bao_io_dispatcher_init i true st).2.1).handler_installed = true ∧
      ((extStep ((bao_io_dispatcher_init i true st).2.1) (ExtStep.notify i)).1).pending i = true := by
  intro st i
  refine ⟨rfl, rfl, ?_⟩
  simp [bao_io_dispatcher_init, bao_intc_setup_handler, extStep, io_dispatcher_intc_handler,
    queue_work]

end BaoIoDispatcher
